import Mathlib

/-!
Shallow embedding of the job-portal backend (models/User.js, routes/auth.js,
routes/user.js, routes/profile.js, utils/sms.js).

Conventions of the embedding:
* Timestamps are `Int` milliseconds since the epoch (`Date.now()` style);
  `new Date(Date.now() + 10*60*1000)` becomes `now + 10 * 60 * 1000`.
* The Mongo collection is a `List User`; `findOne {phoneNumber}` /
  `findById` are `List.find?`; `doc.save()` replaces the entry with the
  same `_id` (or appends a new document).
* Mongoose's pre-save hook (`userSchema.pre('save')`) recomputes the
  completion score when the document was modified; `this.isModified()`
  is modelled as inequality with the originally loaded document.
* JavaScript truthiness of the string/Option fields tested by
  `calculateProfileCompletion` and `verifyOTP`: a `String` field is
  truthy iff nonempty, an absent optional field is falsy.  An absent
  `otp.code` is modelled as the empty string (both are falsy in JS).
* `Math.random()` in `generateOTP` is modelled by a natural-number draw
  `r`; `Math.floor(100000 + Math.random() * 900000)` is `100000 + r % 900000`.
* The express-validator layers that are pure structure checks
  (array sizes, integer ranges, trimmed string lengths, enum membership
  via the typed payloads) are embedded; format-only checks with no
  bearing on any claim (`isMobilePhone`, `isEmail`, `isISO8601`) are
  assumed to have passed.
-/

inductive Gender where
  | male
  | female
  | other
deriving Repr, DecidableEq

inductive ExperienceLevel where
  | fresher
  | experienced
deriving Repr, DecidableEq

/-- One entry of `preferredLocations` (`{ city, priority }`). -/
structure Location where
  city : String
  priority : Int
deriving Repr, DecidableEq

/-- The `notificationSettings` sub-document with its schema defaults. -/
structure NotificationSettings where
  allowNotifications : Bool := true
  emailNotifications : Bool := true
  smsNotifications : Bool := true
  jobAlerts : Bool := true
  marketingNotifications : Bool := false
deriving Repr, DecidableEq

/-- The `otp` sub-document: `{ code, expiresAt, attempts }`. -/
structure OtpChallenge where
  code : String
  expiresAt : Int
  attempts : Nat
deriving Repr, DecidableEq

/-- The `User` schema of models/User.js, with the schema defaults.
Work-history entries, certifications and salary blocks are not read by any
of the verified operations and are kept as opaque payload lists/options
only where a route touches them; fields never read or written by the
embedded operations are omitted. -/
structure User where
  id : Nat
  phoneNumber : String
  isPhoneVerified : Bool := false
  email : Option String := none
  isEmailVerified : Bool := false
  fullName : String
  dateOfBirth : Option Int := none
  gender : Option Gender := none
  city : String
  selectedLanguage : String := "english"
  languagesKnown : List (String × String) := []
  preferredLocations : List Location := []
  willingToRelocate : Bool := false
  workAvailability : List String := []
  experienceLevel : Option ExperienceLevel
  totalExperienceYears : Nat := 0
  skills : List (String × String) := []
  jobCategories : List String := []
  preferredShifts : List String := []
  availableForJoining : String := "within-week"
  accommodationRequired : Bool := false
  notificationSettings : NotificationSettings := {}
  profileCompleted : Bool := false
  profileCompletionPercentage : Nat := 0
  otp : Option OtpChallenge := none
  isActive : Bool := true
  lastLogin : Option Int := none
deriving Repr, DecidableEq

/-- JS truthiness of an optional string field (`undefined` and `""` are falsy). -/
def optStrTruthy : Option String → Bool
  | none => false
  | some s => s != ""

/-- `User.findOne({ phoneNumber })`. -/
def findByPhone (db : List User) (p : String) : Option User :=
  db.find? (fun u => u.phoneNumber == p)

/-- `User.findById(id)`. -/
def findById (db : List User) (uid : Nat) : Option User :=
  db.find? (fun u => u.id == uid)

/-- The ten boolean checks of `calculateProfileCompletion`, in source order. -/
def completionChecks (u : User) : List Bool :=
  [ u.fullName != "",
    optStrTruthy u.email,
    u.dateOfBirth.isSome,
    u.gender.isSome,
    u.city != "",
    !u.preferredLocations.isEmpty,
    !u.workAvailability.isEmpty,
    u.experienceLevel.isSome,
    !u.skills.isEmpty,
    !u.jobCategories.isEmpty ]

/-- `userSchema.methods.calculateProfileCompletion`: counts the satisfied
checks out of `total = 10`, sets `profileCompletionPercentage` to
`Math.round((completed / total) * 100)` (round half up, written here over
the exact rationals as `(completed * 100 + 5) / 10`) and
`profileCompleted` to `percentage >= 80`. -/
def calculateProfileCompletion (u : User) : User :=
  let completed := (completionChecks u).count true
  let percentage := (completed * 100 + 5) / 10
  { u with
    profileCompletionPercentage := percentage,
    profileCompleted := decide (80 ≤ percentage) }

/-- The `pre('save')` hook: recompute the completion score iff the document
was modified (`this.isModified()`), i.e. iff it differs from the document
as originally loaded. -/
def preSave (orig u : User) : User :=
  if u = orig then u else calculateProfileCompletion u

/-- Writing a document back to the collection: replace the entry with the
same `_id`, or insert the document if it is new. -/
def saveUser (db : List User) (u : User) : List User :=
  if db.any (fun v => v.id == u.id) then
    db.map (fun v => if v.id == u.id then u else v)
  else
    db ++ [u]

/-- `await user.save()` for a document `u` loaded as `orig` from `db`:
run the pre-save hook, then write the result back. -/
def persistSave (db : List User) (orig u : User) : List User :=
  saveUser db (preSave orig u)

/-- `userSchema.methods.generateOTP`: draw
`Math.floor(100000 + Math.random() * 900000)` (the draw is the parameter
`r`, reduced into the 0..899999 sample space), store it as the string
code with expiry `now + 10 minutes` and a fresh attempt counter, and
return the code. -/
def generateOTP (u : User) (r : Nat) (now : Int) : String × User :=
  let otp := Nat.repr (100000 + r % 900000)
  (otp,
   { u with otp := some { code := otp, expiresAt := now + 10 * 60 * 1000, attempts := 0 } })

inductive VerifyResult where
  | noChallenge
  | expired
  | attemptsExhausted
  | invalidCode
  | verified
deriving Repr, DecidableEq

/-- `userSchema.methods.verifyOTP`, returning the outcome together with the
(possibly mutated) document. Source order of the checks: missing
challenge, expiry (`this.otp.expiresAt < new Date()`), attempt cap
(`this.otp.attempts >= 3`), code mismatch (increments `attempts`), and
finally success (sets `isPhoneVerified`, clears `otp`). -/
def verifyOTP (u : User) (now : Int) (input : String) : VerifyResult × User :=
  match u.otp with
  | none => (.noChallenge, u)
  | some o =>
    if o.code = "" then (.noChallenge, u)
    else if o.expiresAt < now then (.expired, u)
    else if 3 ≤ o.attempts then (.attemptsExhausted, u)
    else if o.code ≠ input then
      (.invalidCode, { u with otp := some { o with attempts := o.attempts + 1 } })
    else
      (.verified, { u with isPhoneVerified := true, otp := none })

/-- The user document built by POST /api/auth/send-otp when
`findOne({ phoneNumber })` comes back empty:
`new User({ phoneNumber: "", fullName: '', city: '', experienceLevel: 'fresher' })`. -/
def newUserFromSendOtp (nextId : Nat) : User :=
  { id := nextId
    phoneNumber := ""
    fullName := ""
    city := ""
    experienceLevel := some .fresher }

structure OtpIssueResponse where
  status : Nat
  success : Bool
  message : String
  echoedOtp : Option String
deriving Repr, DecidableEq

/-- POST /api/auth/send-otp (after the express-validator layer): look the
user up by phone, create the document above if absent, generate and save
the OTP, then dispatch it; a dispatch failure is caught and still
answered with HTTP 200 (echoing the code in development mode). -/
def sendOtpRoute (db : List User) (nextId : Nat) (p method : String) (r : Nat)
    (now : Int) (dispatchOk devMode : Bool) : OtpIssueResponse × List User :=
  let user :=
    match findByPhone db p with
    | some u => u
    | none => newUserFromSendOtp nextId
  let gen := generateOTP user r now
  let db' := persistSave db user gen.2
  if dispatchOk then
    ({ status := 200, success := true,
       message := s!"OTP sent successfully via {method}", echoedOtp := none }, db')
  else
    ({ status := 200, success := true,
       message := s!"OTP sent successfully via {method} (DEV MODE)",
       echoedOtp := if devMode then some gen.1 else none }, db')

/-- POST /api/auth/resend-otp (after validation): 404 when the phone is
unknown, otherwise regenerate, save, dispatch, tolerating dispatch
failure exactly like send-otp. -/
def resendOtpRoute (db : List User) (p method : String) (r : Nat) (now : Int)
    (dispatchOk devMode : Bool) : OtpIssueResponse × List User :=
  match findByPhone db p with
  | none =>
    ({ status := 404, success := false, message := "Phone number not found",
       echoedOtp := none }, db)
  | some u =>
    let gen := generateOTP u r now
    let db' := persistSave db u gen.2
    if dispatchOk then
      ({ status := 200, success := true,
         message := s!"OTP resent successfully via {method}", echoedOtp := none }, db')
    else
      ({ status := 200, success := true,
         message := s!"OTP resent successfully via {method} (DEV MODE)",
         echoedOtp := if devMode then some gen.1 else none }, db')

inductive VerifyOutcome where
  | notFound
  | failed (r : VerifyResult)
  | ok
deriving Repr, DecidableEq

/-- POST /api/auth/verify-otp (after validation): 404 when the phone is
unknown; otherwise run `verifyOTP` and save the document in both the
failure path (persisting the attempt counter) and the success path
(which also stamps `lastLogin`). -/
def verifyOtpRoute (db : List User) (p input : String) (now : Int) :
    VerifyOutcome × List User :=
  match findByPhone db p with
  | none => (.notFound, db)
  | some u =>
    match verifyOTP u now input with
    | (.verified, u1) => (.ok, persistSave db u { u1 with lastLogin := some now })
    | (r, u1) => (.failed r, persistSave db u u1)

inductive UpdateOutcome where
  | validationFailed
  | notFound
  | conflict
  | serverError
  | ok
deriving Repr, DecidableEq

/-- The `.trim()` sanitizer of the express-validator chains, written over
the character list so that it evaluates inside the kernel (the behaviour
on the embedded inputs is that of `String.trim`). -/
def jsTrim (s : String) : String :=
  ⟨((s.data.dropWhile Char.isWhitespace).reverse.dropWhile Char.isWhitespace).reverse⟩

/-- The schema's `lowercase: true` setter on `email`, over the character
list for the same reason. -/
def jsToLower (s : String) : String :=
  ⟨s.data.map Char.toLower⟩

/-- Request body of PUT /api/user/personal-details. -/
structure PersonalDetails where
  fullName : String
  city : String
  email : Option String := none
  dateOfBirth : Option Int := none
  gender : Option Gender := none
deriving Repr, DecidableEq

/-- PUT /api/user/personal-details: trimmed-length validation, 404 for a
missing user, the duplicate-email guard
(`if (email && email !== user.email)` followed by
`findOne({ email, _id: { $ne: user._id } })`, the query and the stored
value both passing through the schema's lowercase setter), then the
partial update and save. -/
def updatePersonalDetails (db : List User) (uid : Nat) (p : PersonalDetails) :
    UpdateOutcome × List User :=
  if (jsTrim p.fullName).length < 2 || (jsTrim p.city).length < 2 then
    (.validationFailed, db)
  else
    match findById db uid with
    | none => (.notFound, db)
    | some u =>
      if optStrTruthy p.email && p.email != u.email
          && db.any (fun v => v.id != u.id && v.email == p.email.map jsToLower) then
        (.conflict, db)
      else
        let u' := { u with
          fullName := (jsTrim p.fullName),
          city := (jsTrim p.city),
          email := if optStrTruthy p.email then p.email.map jsToLower else u.email,
          dateOfBirth := if p.dateOfBirth.isSome then p.dateOfBirth else u.dateOfBirth,
          gender := if p.gender.isSome then p.gender else u.gender }
        (.ok, persistSave db u u')

/-- The express-validator layer of PUT /api/user/location-preferences:
`isArray({ min: 1, max: 3 })`, per-entry trimmed city length ≥ 2, and
per-entry integer priority in 1..3. -/
def locationValidatorFails (locs : List Location) : Bool :=
  locs.length < 1 || locs.length > 3 ||
  locs.any (fun l => (jsTrim l.city).length < 2) ||
  locs.any (fun l => l.priority < 1 || l.priority > 3)

/-- The handler's own duplicate check:
`new Set(priorities).size !== priorities.length`. -/
def hasDistinctPriorities (locs : List Location) : Bool :=
  (locs.map Location.priority).dedup.length == (locs.map Location.priority).length

/-- PUT /api/user/location-preferences: validator layer, duplicate-priority
rejection, then wholesale replacement of the stored list and save.  (A
missing user would make the handler throw into its catch-all 500; that is
the `serverError` arm, with the store untouched.) -/
def updateLocationPreferences (db : List User) (uid : Nat) (locs : List Location)
    (willing : Bool) : UpdateOutcome × List User :=
  if locationValidatorFails locs then (.validationFailed, db)
  else if !hasDistinctPriorities locs then (.validationFailed, db)
  else
    match findById db uid with
    | none => (.serverError, db)
    | some u =>
      let u' := { u with
        preferredLocations := locs.map (fun l => { l with city := jsTrim l.city }),
        willingToRelocate := willing }
      (.ok, persistSave db u u')

/-! ### Helper lemmas -/

theorem toDigitsCore_length_le (b f n : Nat) (l : List Char) :
    l.length ≤ (Nat.toDigitsCore b f n l).length := by
  induction f generalizing n l with
  | zero => simp [Nat.toDigitsCore]
  | succ f ih =>
    simp only [Nat.toDigitsCore]
    split
    · simp
    · exact le_trans (by simp) (ih (n / b) (Nat.digitChar (n % b) :: l))

/-- The decimal representation of a natural number is never the empty
string, hence a generated OTP code never trips the falsy-code branch of
`verifyOTP`. -/
theorem nat_repr_ne_empty (n : Nat) : Nat.repr n ≠ "" := by
  have h1 : 1 ≤ (Nat.toDigits 10 n).length := by
    unfold Nat.toDigits
    simp only [Nat.toDigitsCore]
    split
    · simp
    · exact le_trans (by simp) (toDigitsCore_length_le 10 n (n / 10) _)
  intro he
  have h2 : (Nat.toDigits 10 n) = [] := by
    have := congrArg String.data he
    simpa [Nat.repr, List.asString] using this
  rw [h2] at h1
  simp at h1

theorem findByPhone_phone {db : List User} {p : String} {u : User}
    (h : findByPhone db p = some u) : u.phoneNumber = p := by
  have := List.find?_some h
  simpa using this

theorem mem_of_findByPhone {db : List User} {p : String} {u : User}
    (h : findByPhone db p = some u) : u ∈ db :=
  List.mem_of_find?_eq_some h

theorem findById_id {db : List User} {uid : Nat} {u : User}
    (h : findById db uid = some u) : u.id = uid := by
  have := List.find?_some h
  simpa using this

/-- Replacing by `_id` keeps a phone-number lookup pointing at the saved
document, as long as the saved document keeps the `_id` and phone of the
document the lookup used to return. -/
theorem findByPhone_map_replace {p : String} {u v : User}
    (hid : v.id = u.id) (hph : v.phoneNumber = u.phoneNumber) :
    ∀ db : List User, findByPhone db p = some u →
      findByPhone (db.map (fun w => if w.id == v.id then v else w)) p = some v := by
  intro db
  induction db with
  | nil => intro h; simp [findByPhone] at h
  | cons w ws ih =>
    intro h
    by_cases hw : w.phoneNumber = p
    · have hu : w = u := by
        simpa [findByPhone, List.find?_cons_of_pos, hw] using h
      subst hu
      have hwv : (w.id == v.id) = true := by simp [hid]
      simp only [List.map_cons, hwv, if_true]
      have : v.phoneNumber = p := by rw [hph, ← hw]
      simp [findByPhone, List.find?_cons_of_pos, this]
    · have htail : findByPhone ws p = some u := by
        simpa [findByPhone, List.find?_cons_of_neg, hw] using h
      have hup : u.phoneNumber = p := findByPhone_phone htail
      by_cases hwv : w.id = v.id
      · have : v.phoneNumber = p := by rw [hph, hup]
        simp [findByPhone, List.find?_cons_of_pos, this, hwv]
      · have := ih htail
        simpa [findByPhone, List.find?_cons_of_neg, hw, hwv] using this

theorem findByPhone_saveUser {db : List User} {p : String} {u v : User}
    (h : findByPhone db p = some u) (hid : v.id = u.id)
    (hph : v.phoneNumber = u.phoneNumber) :
    findByPhone (saveUser db v) p = some v := by
  have hmem : u ∈ db := mem_of_findByPhone h
  have hany : db.any (fun w => w.id == v.id) = true :=
    List.any_eq_true.mpr ⟨u, hmem, by simp [hid]⟩
  unfold saveUser
  rw [if_pos hany]
  exact findByPhone_map_replace hid hph db h

/-- Every document present after a save was already present or is the
document just written. -/
theorem mem_saveUser {db : List User} {u v : User}
    (h : v ∈ saveUser db u) : v ∈ db ∨ v = u := by
  unfold saveUser at h
  split at h
  · rcases List.mem_map.mp h with ⟨w, hw, hv⟩
    by_cases hid : (w.id == u.id) = true
    · right; rw [← hv, if_pos hid]
    · left; rw [← hv, if_neg hid]; exact hw
  · rcases List.mem_append.mp h with h' | h'
    · left; exact h'
    · right; simpa using h'

theorem calculateProfileCompletion_otp (u : User) :
    (calculateProfileCompletion u).otp = u.otp := rfl

theorem preSave_otp (orig u : User) : (preSave orig u).otp = u.otp := by
  unfold preSave; split <;> rfl

theorem preSave_id (orig u : User) : (preSave orig u).id = u.id := by
  unfold preSave; split <;> rfl

theorem preSave_phoneNumber (orig u : User) :
    (preSave orig u).phoneNumber = u.phoneNumber := by
  unfold preSave; split <;> rfl

theorem preSave_preferredLocations (orig u : User) :
    (preSave orig u).preferredLocations = u.preferredLocations := by
  unfold preSave; split <;> rfl

/-! ### Sample documents used by witnesses and counterexamples -/

def baseUser : User :=
  { id := 7, phoneNumber := "+15550001111", fullName := "", city := "",
    experienceLevel := some .fresher }

def liveOtp : OtpChallenge := { code := "123456", expiresAt := 600000, attempts := 0 }

def otpUser : User := { baseUser with otp := some liveOtp }

def scenarioProfileA : User :=
  { id := 21, phoneNumber := "+15550002222", fullName := "Asha Kumar",
    email := some "asha@example.com", city := "Pune", experienceLevel := none }

def scenarioProfileB : User :=
  { scenarioProfileA with
    preferredLocations := [{ city := "Mumbai", priority := 1 }],
    workAvailability := ["full-time"],
    experienceLevel := some .fresher,
    skills := [("security-guard", "beginner")],
    jobCategories := ["security"] }

/-! ### Claims -/

/-- Claim C1: the send-otp route is claimed to create, for an unseen phone
number, a profile keyed by that phone number so a later verify for the
same number finds it.  The handler instead constructs the new document
with `phoneNumber: ""` (contradicting its own "Create new user with phone
number" comment and the schema's required unique phone key), so the
stored profile is not findable by the requested number and the follow-up
verify-otp lookup fails with NotFound.  Evaluated at the spec's own
example `+10000000001`. -/
theorem c1_sendOtp_profile_not_keyed_by_phone :
    ((sendOtpRoute [] 1 "+10000000001" "sms" 0 0 true false).2.all
        (fun v => v.phoneNumber == "")) = true
    ∧ (sendOtpRoute [] 1 "+10000000001" "sms" 0 0 true false).2.length = 1
    ∧ findByPhone (sendOtpRoute [] 1 "+10000000001" "sms" 0 0 true false).2
        "+10000000001" = none
    ∧ (verifyOtpRoute (sendOtpRoute [] 1 "+10000000001" "sms" 0 0 true false).2
        "+10000000001" "100000" 0).1 = VerifyOutcome.notFound := by
  decide

/-- Claim C2: the completion scorer evaluates the ten fixed checks, sets
`percentage = round(matched/10 * 100)` (here `10 * matched` exactly) and
`completed = (percentage ≥ 80)`; the spec's two scenario profiles score
30/incomplete and 80/complete; and every persisted mutation (a save of a
modified document) stores the freshly recomputed score. -/
theorem c2_completion_scorer_correct :
    (∀ u : User,
        (calculateProfileCompletion u).profileCompletionPercentage
          = 10 * (completionChecks u).count true
        ∧ ((calculateProfileCompletion u).profileCompleted = true ↔
            80 ≤ (calculateProfileCompletion u).profileCompletionPercentage))
    ∧ (calculateProfileCompletion scenarioProfileA).profileCompletionPercentage = 30
    ∧ (calculateProfileCompletion scenarioProfileA).profileCompleted = false
    ∧ (calculateProfileCompletion scenarioProfileB).profileCompletionPercentage = 80
    ∧ (calculateProfileCompletion scenarioProfileB).profileCompleted = true
    ∧ (∀ (db : List User) (orig u : User), u ≠ orig →
        persistSave db orig u = saveUser db (calculateProfileCompletion u)) := by
  refine ⟨?_, by decide, by decide, by decide, by decide, ?_⟩
  · intro u
    constructor
    · show ((completionChecks u).count true * 100 + 5) / 10
          = 10 * (completionChecks u).count true
      generalize (completionChecks u).count true = c
      omega
    · show decide (80 ≤ ((completionChecks u).count true * 100 + 5) / 10) = true ↔
          80 ≤ ((completionChecks u).count true * 100 + 5) / 10
      simp
  · intro db orig u hne
    unfold persistSave preSave
    rw [if_neg hne]

/-- Witness for C2 at a concrete modified document. -/
theorem c2_completion_scorer_correct_witness :
    scenarioProfileB ≠ scenarioProfileA
    ∧ persistSave [] scenarioProfileA scenarioProfileB
        = saveUser [] (calculateProfileCompletion scenarioProfileB) :=
  ⟨by decide,
   c2_completion_scorer_correct.2.2.2.2.2 [] scenarioProfileA scenarioProfileB (by decide)⟩

/-- Claim C5: with a live, unexpired challenge and fewer than 3 attempts,
verifying the matching code succeeds, marks the phone verified, and
clears the whole otp sub-record, so a second verification of the same
code fails with NoChallenge. -/
theorem c5_verify_success_clears_challenge :
    ∀ (u : User) (o : OtpChallenge) (now now2 : Int) (input : String),
      u.otp = some o → o.code ≠ "" → ¬(o.expiresAt < now) → o.attempts < 3 →
      input = o.code →
      verifyOTP u now input = (.verified, { u with isPhoneVerified := true, otp := none })
      ∧ (verifyOTP { u with isPhoneVerified := true, otp := none } now2 input).1
          = .noChallenge := by
  intro u o now now2 input ho hc he ha hi
  constructor
  · simp only [verifyOTP, ho]
    rw [if_neg hc, if_neg he, if_neg (by omega), if_neg (fun h => h hi.symm)]
  · rfl

/-- Witness for C5 on a concrete live challenge. -/
theorem c5_verify_success_clears_challenge_witness :
    (otpUser.otp = some liveOtp ∧ liveOtp.code ≠ "" ∧ ¬(liveOtp.expiresAt < 0)
      ∧ liveOtp.attempts < 3 ∧ "123456" = liveOtp.code)
    ∧ verifyOTP otpUser 0 "123456"
        = (.verified, { otpUser with isPhoneVerified := true, otp := none })
    ∧ (verifyOTP { otpUser with isPhoneVerified := true, otp := none } 0 "123456").1
        = .noChallenge := by
  refine ⟨⟨rfl, by decide, by decide, by decide, rfl⟩, ?_⟩
  exact c5_verify_success_clears_challenge otpUser liveOtp 0 0 "123456" rfl
    (by decide) (by decide) (by decide) rfl

/-- Any live challenge strictly past its stored expiry is rejected as
Expired, and the document (challenge sub-record included) is untouched. -/
theorem verifyOTP_expired {u : User} {o : OtpChallenge} {now : Int} (input : String)
    (ho : u.otp = some o) (hc : o.code ≠ "") (he : o.expiresAt < now) :
    verifyOTP u now input = (.expired, u) := by
  simp only [verifyOTP, ho]
  rw [if_neg hc, if_pos he]

/-- Counterexample to claim C6 as stated: a challenge issued at time 0
carries expiry 600000 (= T + 10 minutes), and a verification attempted
exactly at the stored expiry does not fail with Expired — the source
check is the strict `this.otp.expiresAt < new Date()` — it succeeds. -/
theorem c6_counterexample :
    (generateOTP baseUser 23456 0).2.otp.map OtpChallenge.expiresAt = some 600000
    ∧ (generateOTP baseUser 23456 0).1 = "123456"
    ∧ (verifyOTP (generateOTP baseUser 23456 0).2 600000 "123456").1
        = VerifyResult.verified := by
  decide

/-- Claim C6 (amended): a verification attempted strictly after the stored
expiry (in particular strictly after T + 10 minutes for a challenge
issued at T) fails with Expired and leaves the document — including the
challenge sub-record — unchanged; at exactly the stored expiry the
strict comparison does not fire. -/
theorem c6_expired_strictly_after :
    (∀ (u : User) (o : OtpChallenge) (now : Int) (input : String),
        u.otp = some o → o.code ≠ "" → o.expiresAt < now →
        verifyOTP u now input = (.expired, u))
    ∧ (∀ (u : User) (r : Nat) (t now : Int) (input : String),
        t + 10 * 60 * 1000 < now →
        verifyOTP (generateOTP u r t).2 now input = (.expired, (generateOTP u r t).2)) := by
  constructor
  · intro u o now input ho hc he
    exact verifyOTP_expired input ho hc he
  · intro u r t now input hlt
    exact verifyOTP_expired input rfl (nat_repr_ne_empty _) hlt

/-- Witness for C6 on a concrete over-expiry verification. -/
theorem c6_expired_strictly_after_witness :
    ((0 : Int) + 10 * 60 * 1000 < 600001)
    ∧ verifyOTP (generateOTP baseUser 0 0).2 600001 "999999"
        = (.expired, (generateOTP baseUser 0 0).2) :=
  ⟨by decide, c6_expired_strictly_after.2 baseUser 0 0 600001 "999999" (by decide)⟩

/-- A live, unexpired challenge with a missing/empty code fails as
NoChallenge; this and the following outcome equations are the four
remaining branches of `verifyOTP` packaged as rewrite rules. -/
theorem verifyOTP_noChallenge {u : User} (now : Int) (input : String)
    (ho : u.otp = none) : verifyOTP u now input = (.noChallenge, u) := by
  simp only [verifyOTP, ho]

theorem verifyOTP_emptyCode {u : User} {o : OtpChallenge} (now : Int) (input : String)
    (ho : u.otp = some o) (hc : o.code = "") :
    verifyOTP u now input = (.noChallenge, u) := by
  simp only [verifyOTP, ho]
  rw [if_pos hc]

theorem verifyOTP_exhausted {u : User} {o : OtpChallenge} {now : Int} (input : String)
    (ho : u.otp = some o) (hc : o.code ≠ "") (he : ¬ o.expiresAt < now)
    (ha : 3 ≤ o.attempts) :
    verifyOTP u now input = (.attemptsExhausted, u) := by
  simp only [verifyOTP, ho]
  rw [if_neg hc, if_neg he, if_pos ha]

theorem verifyOTP_invalid {u : User} {o : OtpChallenge} {now : Int} {input : String}
    (ho : u.otp = some o) (hc : o.code ≠ "") (he : ¬ o.expiresAt < now)
    (ha : o.attempts < 3) (hne : o.code ≠ input) :
    verifyOTP u now input
      = (.invalidCode, { u with otp := some { o with attempts := o.attempts + 1 } }) := by
  simp only [verifyOTP, ho]
  rw [if_neg hc, if_neg he, if_neg (by omega), if_pos hne]

theorem verifyOTP_success {u : User} {o : OtpChallenge} {now : Int} {input : String}
    (ho : u.otp = some o) (hc : o.code ≠ "") (he : ¬ o.expiresAt < now)
    (ha : o.attempts < 3) (heq : o.code = input) :
    verifyOTP u now input = (.verified, { u with isPhoneVerified := true, otp := none }) := by
  simp only [verifyOTP, ho]
  rw [if_neg hc, if_neg he, if_neg (by omega), if_neg (fun h => h heq)]

/-- Counterexample to claim C4 as stated: the prior challenge's code is
"123456"; a re-issue whose uniform draw happens to produce the same
six-digit value (r = 23456) replaces the challenge with an identical
code, and verifying the *old* code after the new issue then succeeds —
so "never succeeds" fails on the 1-in-900000 collision the uniform draw
permits. -/
theorem c4_counterexample :
    otpUser.otp.map OtpChallenge.code = some "123456"
    ∧ (generateOTP otpUser 23456 500).1 = "123456"
    ∧ (verifyOTP (generateOTP otpUser 23456 500).2 600 "123456").1
        = VerifyResult.verified := by
  decide

/-- Claim C4 (amended): issuing an OTP produces the decimal code of a
number in 100000..999999, sets expiry to now + 10 minutes, resets the
attempt counter to 0 and unconditionally replaces any prior challenge;
verifying an old code that differs from the newly drawn code never
succeeds after the new issue (and fails with InvalidCode while the new
challenge is unexpired) — but when the uniform draw reproduces the
previous code, verifying the old code string succeeds, since it
coincides with the live code; re-issuance is always allowed (the resend
route answers 200 for every known phone, with no rate limit). -/
theorem c4_generateOTP_replaces_challenge :
    ∀ (u : User) (r : Nat) (now : Int),
      (generateOTP u r now).1 = Nat.repr (100000 + r % 900000)
      ∧ 100000 ≤ 100000 + r % 900000 ∧ 100000 + r % 900000 ≤ 999999
      ∧ (generateOTP u r now).2.otp
          = some { code := (generateOTP u r now).1,
                   expiresAt := now + 10 * 60 * 1000, attempts := 0 }
      ∧ (∀ (oldCode : String) (now2 : Int), oldCode ≠ (generateOTP u r now).1 →
          (verifyOTP (generateOTP u r now).2 now2 oldCode).1 ≠ .verified)
      ∧ (∀ (oldCode : String) (now2 : Int), oldCode ≠ (generateOTP u r now).1 →
          ¬(now + 10 * 60 * 1000 < now2) →
          (verifyOTP (generateOTP u r now).2 now2 oldCode).1 = .invalidCode)
      ∧ (∀ (db : List User) (p method : String) (r2 : Nat) (t : Int) (dOk dev : Bool)
            (v : User), findByPhone db p = some v →
          (resendOtpRoute db p method r2 t dOk dev).1.status = 200
          ∧ (resendOtpRoute db p method r2 t dOk dev).1.success = true) := by
  intro u r now
  have hmod : r % 900000 < 900000 := Nat.mod_lt _ (by omega)
  have hotp : (generateOTP u r now).2.otp
      = some { code := Nat.repr (100000 + r % 900000),
               expiresAt := now + 10 * 60 * 1000, attempts := 0 } := rfl
  have hcode : (Nat.repr (100000 + r % 900000) : String) ≠ "" := nat_repr_ne_empty _
  refine ⟨rfl, by omega, by omega, rfl, ?_, ?_, ?_⟩
  · intro oldCode now2 hne
    by_cases hexp : (now + 10 * 60 * 1000 : Int) < now2
    · rw [verifyOTP_expired oldCode hotp hcode hexp]
      simp
    · rw [verifyOTP_invalid hotp hcode hexp (Nat.zero_lt_succ 2) (Ne.symm hne)]
      simp
  · intro oldCode now2 hne hexp
    rw [verifyOTP_invalid hotp hcode hexp (Nat.zero_lt_succ 2) (Ne.symm hne)]
  · intro db p method r2 t dOk dev v hv
    simp only [resendOtpRoute, hv]
    cases dOk <;> exact ⟨rfl, rfl⟩

/-- Witness for C4 on a concrete re-issue with a differing old code. -/
theorem c4_generateOTP_replaces_challenge_witness :
    "123456" ≠ (generateOTP otpUser 0 500).1
    ∧ ¬((500 : Int) + 10 * 60 * 1000 < 600)
    ∧ (verifyOTP (generateOTP otpUser 0 500).2 600 "123456").1 = .invalidCode :=
  ⟨by decide, by decide,
   (c4_generateOTP_replaces_challenge otpUser 0 500).2.2.2.2.2.1 "123456" 600
     (by decide) (by decide)⟩

/-- Agreement of two user documents on every embedded field other than the
`otp` sub-record and the `isPhoneVerified` flag. -/
def agreesOutsideOtp (u v : User) : Prop :=
  v.id = u.id ∧ v.phoneNumber = u.phoneNumber ∧ v.email = u.email
  ∧ v.isEmailVerified = u.isEmailVerified ∧ v.fullName = u.fullName
  ∧ v.dateOfBirth = u.dateOfBirth ∧ v.gender = u.gender ∧ v.city = u.city
  ∧ v.selectedLanguage = u.selectedLanguage ∧ v.languagesKnown = u.languagesKnown
  ∧ v.preferredLocations = u.preferredLocations
  ∧ v.willingToRelocate = u.willingToRelocate
  ∧ v.workAvailability = u.workAvailability ∧ v.experienceLevel = u.experienceLevel
  ∧ v.totalExperienceYears = u.totalExperienceYears ∧ v.skills = u.skills
  ∧ v.jobCategories = u.jobCategories ∧ v.preferredShifts = u.preferredShifts
  ∧ v.availableForJoining = u.availableForJoining
  ∧ v.accommodationRequired = u.accommodationRequired
  ∧ v.notificationSettings = u.notificationSettings
  ∧ v.profileCompleted = u.profileCompleted
  ∧ v.profileCompletionPercentage = u.profileCompletionPercentage
  ∧ v.isActive = u.isActive ∧ v.lastLogin = u.lastLogin

theorem agreesOutsideOtp_self (u : User) : agreesOutsideOtp u u := by
  unfold agreesOutsideOtp
  refine ⟨rfl, rfl, rfl, rfl, rfl, rfl, rfl, rfl, rfl, rfl, rfl, rfl, rfl,
    rfl, rfl, rfl, rfl, rfl, rfl, rfl, rfl, rfl, rfl, rfl, rfl⟩

theorem agreesOutsideOtp_setOtp (u : User) (x : Option OtpChallenge) :
    agreesOutsideOtp u { u with otp := x } := by
  unfold agreesOutsideOtp
  refine ⟨rfl, rfl, rfl, rfl, rfl, rfl, rfl, rfl, rfl, rfl, rfl, rfl, rfl,
    rfl, rfl, rfl, rfl, rfl, rfl, rfl, rfl, rfl, rfl, rfl, rfl⟩

theorem agreesOutsideOtp_verify (u : User) (x : Option OtpChallenge) :
    agreesOutsideOtp u { u with isPhoneVerified := true, otp := x } := by
  unfold agreesOutsideOtp
  refine ⟨rfl, rfl, rfl, rfl, rfl, rfl, rfl, rfl, rfl, rfl, rfl, rfl, rfl,
    rfl, rfl, rfl, rfl, rfl, rfl, rfl, rfl, rfl, rfl, rfl, rfl⟩

/-- Claim C10: `verifyOTP` touches nothing outside the otp sub-record and
the phone-verified flag; on a NoChallenge, Expired or AttemptsExhausted
failure the document is returned entirely unchanged; on an InvalidCode
failure the only change is `otp.attempts + 1` (code and expiry kept),
with the phone-verified flag untouched. -/
theorem c10_verifyOTP_frame :
    ∀ (u : User) (now : Int) (input : String),
      agreesOutsideOtp u (verifyOTP u now input).2
      ∧ ((verifyOTP u now input).1 = .noChallenge ∨ (verifyOTP u now input).1 = .expired
          ∨ (verifyOTP u now input).1 = .attemptsExhausted →
          (verifyOTP u now input).2 = u)
      ∧ ((verifyOTP u now input).1 = .invalidCode →
          ∃ o, u.otp = some o
            ∧ (verifyOTP u now input).2.otp
                = some { o with attempts := o.attempts + 1 }
            ∧ (verifyOTP u now input).2.isPhoneVerified = u.isPhoneVerified) := by
  intro u now input
  rcases ho : u.otp with _ | o
  · rw [verifyOTP_noChallenge now input ho]
    exact ⟨agreesOutsideOtp_self u, fun _ => rfl, fun hc => by simp at hc⟩
  · by_cases h1 : o.code = ""
    · rw [verifyOTP_emptyCode now input ho h1]
      exact ⟨agreesOutsideOtp_self u, fun _ => rfl, fun hc => by simp at hc⟩
    by_cases h2 : o.expiresAt < now
    · rw [verifyOTP_expired input ho h1 h2]
      exact ⟨agreesOutsideOtp_self u, fun _ => rfl, fun hc => by simp at hc⟩
    by_cases h3 : (3:Nat) ≤ o.attempts
    · rw [verifyOTP_exhausted input ho h1 h2 h3]
      exact ⟨agreesOutsideOtp_self u, fun _ => rfl, fun hc => by simp at hc⟩
    by_cases h4 : o.code = input
    · rw [verifyOTP_success ho h1 h2 (by omega) h4]
      refine ⟨agreesOutsideOtp_verify u none, fun hc => ?_, fun hc => by simp at hc⟩
      rcases hc with hc | hc | hc <;> simp at hc
    · rw [verifyOTP_invalid ho h1 h2 (by omega) h4]
      refine ⟨agreesOutsideOtp_setOtp u _, fun hc => ?_, fun _ => ⟨o, rfl, rfl, rfl⟩⟩
      rcases hc with hc | hc | hc <;> simp at hc

/-- Witness for C10 on a concrete InvalidCode failure. -/
theorem c10_verifyOTP_frame_witness :
    (verifyOTP otpUser 0 "000000").1 = .invalidCode
    ∧ ∃ o, otpUser.otp = some o
        ∧ (verifyOTP otpUser 0 "000000").2.otp
            = some { o with attempts := o.attempts + 1 }
        ∧ (verifyOTP otpUser 0 "000000").2.isPhoneVerified = otpUser.isPhoneVerified :=
  ⟨by decide, (c10_verifyOTP_frame otpUser 0 "000000").2.2 (by decide)⟩

theorem nodup_of_dedup_length {l : List Int} (h : l.dedup.length = l.length) :
    l.Nodup := by
  have hs : l.dedup.Sublist l := List.dedup_sublist l
  have heq : l.dedup = l := hs.eq_of_length h
  rw [← heq]
  exact List.nodup_dedup l

/-- Claim C7: a personal-details update whose supplied email is owned by a
different profile is rejected with Conflict and the store is left
untouched; supplying the caller's own current email bypasses the
duplicate check and the update succeeds. -/
theorem c7_email_conflict :
    ∀ (db : List User) (uid : Nat) (p : PersonalDetails) (u : User),
      2 ≤ (jsTrim p.fullName).length → 2 ≤ (jsTrim p.city).length →
      findById db uid = some u →
      ((optStrTruthy p.email = true → p.email ≠ u.email →
          db.any (fun v => v.id != u.id && v.email == p.email.map jsToLower) = true →
          updatePersonalDetails db uid p = (.conflict, db))
       ∧ (p.email = u.email → (updatePersonalDetails db uid p).1 = .ok)) := by
  intro db uid p u hname hcity hfind
  have hval : ((jsTrim p.fullName).length < 2 || (jsTrim p.city).length < 2) = false := by
    simp only [Bool.or_eq_false_iff, decide_eq_false_iff_not]
    omega
  constructor
  · intro hemail hne hany
    have h2 : (p.email != u.email) = true := bne_iff_ne.mpr hne
    have hcond : (optStrTruthy p.email && p.email != u.email
        && db.any (fun v => v.id != u.id && v.email == p.email.map jsToLower))
        = true := by
      rw [hemail, h2, hany]
      rfl
    simp only [updatePersonalDetails, hval, Bool.false_eq_true, if_false, hfind,
      hcond, if_true]
  · intro heq
    have h2 : (p.email != u.email) = false := by
      simp [heq]
    have hcond : (optStrTruthy p.email && p.email != u.email
        && db.any (fun v => v.id != u.id && v.email == p.email.map jsToLower))
        = false := by
      rw [h2, Bool.and_false, Bool.false_and]
    simp only [updatePersonalDetails, hval, Bool.false_eq_true, if_false, hfind,
      hcond, if_true]

def conflictOwner : User :=
  { id := 2, phoneNumber := "+15550003333", fullName := "Bea", city := "Delhi",
    email := some "bea@example.com", experienceLevel := some .fresher }

def c7Payload : PersonalDetails :=
  { fullName := "Asha Kumar", city := "Pune", email := some "bea@example.com" }

/-- Witness for C7: a concrete payload colliding with another profile's
email is rejected and the store is unchanged. -/
theorem c7_email_conflict_witness :
    (2 ≤ (jsTrim c7Payload.fullName).length ∧ 2 ≤ (jsTrim c7Payload.city).length
      ∧ findById [scenarioProfileA, conflictOwner] 21 = some scenarioProfileA
      ∧ optStrTruthy c7Payload.email = true
      ∧ c7Payload.email ≠ scenarioProfileA.email
      ∧ [scenarioProfileA, conflictOwner].any
          (fun v => v.id != scenarioProfileA.id
            && v.email == c7Payload.email.map jsToLower) = true)
    ∧ updatePersonalDetails [scenarioProfileA, conflictOwner] 21 c7Payload
        = (.conflict, [scenarioProfileA, conflictOwner]) :=
  ⟨⟨by decide, by decide, by decide, by decide, by decide, by decide⟩,
   (c7_email_conflict [scenarioProfileA, conflictOwner] 21 c7Payload scenarioProfileA
      (by decide) (by decide) (by decide)).1 (by decide) (by decide) (by decide)⟩

/-- Claim C8: a location-preference payload with duplicate priorities is
rejected with ValidationFailed, as is one with more than 3 entries; any
rejected request leaves the store untouched; and after any outcome every
stored document either predates the request or carries pairwise-distinct
priorities in a list of at most 3 entries. -/
theorem c8_location_preferences_validated :
    ∀ (db : List User) (uid : Nat) (locs : List Location) (willing : Bool),
      (¬ (locs.map Location.priority).Nodup →
          updateLocationPreferences db uid locs willing = (.validationFailed, db))
      ∧ (3 < locs.length →
          updateLocationPreferences db uid locs willing = (.validationFailed, db))
      ∧ ((updateLocationPreferences db uid locs willing).1 ≠ .ok →
          (updateLocationPreferences db uid locs willing).2 = db)
      ∧ (∀ v, v ∈ (updateLocationPreferences db uid locs willing).2 →
          v ∈ db ∨ ((v.preferredLocations.map Location.priority).Nodup
                    ∧ v.preferredLocations.length ≤ 3)) := by
  intro db uid locs willing
  refine ⟨?_, ?_, ?_, ?_⟩
  · intro hnodup
    have hdup : hasDistinctPriorities locs = false := by
      unfold hasDistinctPriorities
      rw [beq_eq_false_iff_ne]
      intro hlen
      exact hnodup (nodup_of_dedup_length hlen)
    by_cases hv : locationValidatorFails locs = true
    · simp only [updateLocationPreferences, hv, if_true]
    · simp only [updateLocationPreferences, Bool.not_eq_true] at hv
      simp only [updateLocationPreferences, hv, Bool.false_eq_true, if_false, hdup,
        Bool.not_false, if_true]
  · intro hlen
    have hv : locationValidatorFails locs = true := by
      unfold locationValidatorFails
      simp only [Bool.or_eq_true, decide_eq_true_eq]
      exact Or.inl (Or.inl (Or.inr hlen))
    simp only [updateLocationPreferences, hv, if_true]
  · intro hne
    by_cases hv : locationValidatorFails locs = true
    · simp only [updateLocationPreferences, hv, if_true]
    by_cases hd : hasDistinctPriorities locs = true
    all_goals simp only [updateLocationPreferences, Bool.not_eq_true] at hv ⊢
    · cases hf : findById db uid with
      | none => simp only [hv, Bool.false_eq_true, if_false, hd, Bool.not_true, hf]
      | some u =>
        exfalso
        apply hne
        simp only [updateLocationPreferences, hv, Bool.false_eq_true, if_false, hd,
          Bool.not_true, hf]
    · simp only [Bool.not_eq_true] at hd
      simp only [hv, Bool.false_eq_true, if_false, hd, Bool.not_false, if_true]
  · intro v hv'
    by_cases hv : locationValidatorFails locs = true
    · left
      simpa only [updateLocationPreferences, hv, if_true] using hv'
    by_cases hd : hasDistinctPriorities locs = true
    · cases hf : findById db uid with
      | none =>
        left
        simp only [updateLocationPreferences, Bool.not_eq_true] at hv
        simpa only [updateLocationPreferences, hv, Bool.false_eq_true, if_false, hd,
          Bool.not_true, hf] using hv'
      | some u =>
        simp only [updateLocationPreferences, Bool.not_eq_true] at hv
        simp only [updateLocationPreferences, hv, Bool.false_eq_true, if_false, hd,
          Bool.not_true, hf] at hv'
        rcases mem_saveUser hv' with h | h
        · exact Or.inl h
        · right
          rw [h, preSave_preferredLocations]
          have hmap : ((locs.map (fun l => { l with city := jsTrim l.city })).map
              Location.priority) = locs.map Location.priority := by
            rw [List.map_map]
            rfl
          constructor
          · show ((locs.map (fun l => { l with city := jsTrim l.city })).map
                Location.priority).Nodup
            rw [hmap]
            unfold hasDistinctPriorities at hd
            exact nodup_of_dedup_length (by simpa using hd)
          · show (locs.map (fun l => { l with city := jsTrim l.city })).length ≤ 3
            rw [List.length_map]
            simp only [locationValidatorFails, Bool.or_eq_false_iff,
              decide_eq_false_iff_not, Bool.not_eq_true] at hv
            omega
    · left
      simp only [updateLocationPreferences, Bool.not_eq_true] at hv hd
      simpa only [updateLocationPreferences, hv, Bool.false_eq_true, if_false, hd,
        Bool.not_false, if_true] using hv'

def dupPriorityLocs : List Location :=
  [{ city := "Pune", priority := 1 }, { city := "Mumbai", priority := 1 }]

/-- Witness for C8: a concrete duplicate-priority payload is rejected and
the store is unchanged. -/
theorem c8_location_preferences_validated_witness :
    ¬ (dupPriorityLocs.map Location.priority).Nodup
    ∧ updateLocationPreferences [scenarioProfileA] 21 dupPriorityLocs true
        = (.validationFailed, [scenarioProfileA]) :=
  ⟨by decide,
   (c8_location_preferences_validated [scenarioProfileA] 21 dupPriorityLocs true).1
     (by decide)⟩

/-- Claim C9: for both OTP issuance and resend, a notification-dispatch
failure changes nothing: the stored collection is identical whether
dispatch succeeds or fails (the challenge was saved before dispatch),
the response is still HTTP 200 / success, and the issued code still
verifies against the persisted document. -/
theorem c9_dispatch_failure_tolerated :
    (∀ (db : List User) (nextId : Nat) (p method : String) (r : Nat) (now : Int)
        (devMode : Bool),
        (sendOtpRoute db nextId p method r now true devMode).2
          = (sendOtpRoute db nextId p method r now false devMode).2
        ∧ (sendOtpRoute db nextId p method r now false devMode).1.status = 200
        ∧ (sendOtpRoute db nextId p method r now false devMode).1.success = true
        ∧ (sendOtpRoute db nextId p method r now true devMode).1.status = 200
        ∧ (sendOtpRoute db nextId p method r now true devMode).1.success = true)
    ∧ (∀ (db : List User) (p method : String) (r : Nat) (now : Int) (devMode : Bool)
          (u : User), findByPhone db p = some u →
        (resendOtpRoute db p method r now true devMode).2
          = (resendOtpRoute db p method r now false devMode).2
        ∧ (resendOtpRoute db p method r now false devMode).1.status = 200
        ∧ (resendOtpRoute db p method r now false devMode).1.success = true
        ∧ ∃ u', findByPhone (resendOtpRoute db p method r now false devMode).2 p = some u'
            ∧ (verifyOTP u' now (generateOTP u r now).1).1 = .verified)
    ∧ (∀ (db : List User) (nextId : Nat) (p method : String) (r : Nat) (now : Int)
          (devMode : Bool) (u : User), findByPhone db p = some u →
        ∃ u', findByPhone (sendOtpRoute db nextId p method r now false devMode).2 p
                = some u'
            ∧ (verifyOTP u' now (generateOTP u r now).1).1 = .verified) := by
  have hver : ∀ (u : User) (r : Nat) (now : Int),
      (verifyOTP (preSave u (generateOTP u r now).2) now (generateOTP u r now).1).1
        = .verified := by
    intro u r now
    have ho : (preSave u (generateOTP u r now).2).otp
        = some { code := Nat.repr (100000 + r % 900000),
                 expiresAt := now + 10 * 60 * 1000, attempts := 0 } := by
      rw [preSave_otp]
      rfl
    show (verifyOTP (preSave u (generateOTP u r now).2) now
        (Nat.repr (100000 + r % 900000))).1 = .verified
    simp only [verifyOTP, ho]
    rw [if_neg (nat_repr_ne_empty _),
      if_neg (show ¬ now + 10 * 60 * 1000 < now by omega),
      if_neg (show ¬ (3:Nat) ≤ 0 by omega),
      if_neg (show ¬ Nat.repr (100000 + r % 900000) ≠ Nat.repr (100000 + r % 900000)
        from fun h => h rfl)]
  refine ⟨?_, ?_, ?_⟩
  · intro db nextId p method r now devMode
    exact ⟨rfl, rfl, rfl, rfl, rfl⟩
  · intro db p method r now devMode u hu
    simp only [resendOtpRoute, hu]
    refine ⟨rfl, rfl, rfl, preSave u (generateOTP u r now).2, ?_, hver u r now⟩
    exact findByPhone_saveUser hu (by rw [preSave_id]; rfl) (by rw [preSave_phoneNumber]; rfl)
  · intro db nextId p method r now devMode u hu
    simp only [sendOtpRoute, hu]
    refine ⟨preSave u (generateOTP u r now).2, ?_, hver u r now⟩
    exact findByPhone_saveUser hu (by rw [preSave_id]; rfl) (by rw [preSave_phoneNumber]; rfl)

/-- Witness for C9 on a concrete resend against a known phone. -/
theorem c9_dispatch_failure_tolerated_witness :
    findByPhone [otpUser] "+15550001111" = some otpUser
    ∧ ((resendOtpRoute [otpUser] "+15550001111" "sms" 0 0 true false).2
        = (resendOtpRoute [otpUser] "+15550001111" "sms" 0 0 false false).2
      ∧ (resendOtpRoute [otpUser] "+15550001111" "sms" 0 0 false false).1.status = 200
      ∧ (resendOtpRoute [otpUser] "+15550001111" "sms" 0 0 false false).1.success = true
      ∧ ∃ u', findByPhone
            (resendOtpRoute [otpUser] "+15550001111" "sms" 0 0 false false).2
            "+15550001111" = some u'
          ∧ (verifyOTP u' 0 (generateOTP otpUser 0 0).1).1 = .verified) :=
  ⟨by decide,
   c9_dispatch_failure_tolerated.2.1 [otpUser] "+15550001111" "sms" 0 0 false otpUser
     (by decide)⟩

/-- A failed verification request (here: invalid code) answers with the
failure and persists the incremented attempt counter, so that the next
lookup by the same phone number sees it. -/
theorem otp_invalid_request_step {db : List User} {p w : String} {t : Int} {u : User}
    {o : OtpChallenge}
    (hf : findByPhone db p = some u) (ho : u.otp = some o) (hc : o.code ≠ "")
    (he : ¬ o.expiresAt < t) (ha : o.attempts < 3) (hw : o.code ≠ w) :
    (verifyOtpRoute db p w t).1 = .failed .invalidCode
    ∧ ∃ u', findByPhone (verifyOtpRoute db p w t).2 p = some u'
        ∧ u'.otp = some { o with attempts := o.attempts + 1 } := by
  have hroute : verifyOtpRoute db p w t
      = (.failed .invalidCode,
         persistSave db u { u with otp := some { o with attempts := o.attempts + 1 } }) := by
    simp only [verifyOtpRoute, hf, verifyOTP_invalid ho hc he ha hw]
  rw [hroute]
  refine ⟨rfl,
    ⟨preSave u { u with otp := some { o with attempts := o.attempts + 1 } }, ?_, ?_⟩⟩
  · exact findByPhone_saveUser hf (by rw [preSave_id]) (by rw [preSave_phoneNumber])
  · rw [preSave_otp]

/-- A request against a live, unexpired challenge whose counter is at the
cap fails with AttemptsExhausted, whatever code is supplied. -/
theorem otp_exhausted_request {db : List User} {p input : String} {t : Int} {u : User}
    {o : OtpChallenge}
    (hf : findByPhone db p = some u) (ho : u.otp = some o) (hc : o.code ≠ "")
    (he : ¬ o.expiresAt < t) (ha : 3 ≤ o.attempts) :
    (verifyOtpRoute db p input t).1 = .failed .attemptsExhausted := by
  simp only [verifyOtpRoute, hf, verifyOTP_exhausted input ho hc he ha]

/-- Claim C3: a live, unexpired challenge whose attempt counter has
reached 3 fails every further verification with AttemptsExhausted, even
for the correct code; and because each InvalidCode failure persists the
incremented counter, three wrong codes over three separate requests
followed by the correct code over a fourth still end in
AttemptsExhausted. -/
theorem c3_attempt_cap_is_terminal :
    (∀ (u : User) (o : OtpChallenge) (now : Int) (input : String),
        u.otp = some o → o.code ≠ "" → ¬ o.expiresAt < now → 3 ≤ o.attempts →
        verifyOTP u now input = (.attemptsExhausted, u))
    ∧ (∀ (db : List User) (p : String) (u : User) (o : OtpChallenge)
          (t1 t2 t3 t4 : Int) (w1 w2 w3 : String),
        findByPhone db p = some u → u.otp = some o → o.code ≠ "" → o.attempts = 0 →
        ¬ o.expiresAt < t1 → ¬ o.expiresAt < t2 → ¬ o.expiresAt < t3 →
        ¬ o.expiresAt < t4 →
        o.code ≠ w1 → o.code ≠ w2 → o.code ≠ w3 →
        (verifyOtpRoute db p w1 t1).1 = .failed .invalidCode
        ∧ (verifyOtpRoute (verifyOtpRoute db p w1 t1).2 p w2 t2).1
            = .failed .invalidCode
        ∧ (verifyOtpRoute (verifyOtpRoute (verifyOtpRoute db p w1 t1).2 p w2 t2).2
            p w3 t3).1 = .failed .invalidCode
        ∧ (verifyOtpRoute (verifyOtpRoute (verifyOtpRoute (verifyOtpRoute db p w1 t1).2
            p w2 t2).2 p w3 t3).2 p o.code t4).1 = .failed .attemptsExhausted) := by
  constructor
  · intro u o now input ho hc he ha
    exact verifyOTP_exhausted input ho hc he ha
  · intro db p u o t1 t2 t3 t4 w1 w2 w3 hf ho hc ha0 he1 he2 he3 he4 hw1 hw2 hw3
    obtain ⟨hr1, u1, hf1, ho1⟩ :=
      otp_invalid_request_step hf ho hc he1 (by omega) hw1
    obtain ⟨hr2, u2, hf2, ho2⟩ :=
      otp_invalid_request_step hf1 ho1 hc he2 (show o.attempts + 1 < 3 by omega) hw2
    obtain ⟨hr3, u3, hf3, ho3⟩ :=
      otp_invalid_request_step hf2 ho2 hc he3 (show o.attempts + 1 + 1 < 3 by omega) hw3
    refine ⟨hr1, hr2, hr3, ?_⟩
    exact otp_exhausted_request hf3 ho3 hc he4 (show 3 ≤ o.attempts + 1 + 1 + 1 by omega)

/-- Witness for C3: a concrete challenge, three wrong codes over separate
requests, then the correct one — final outcome AttemptsExhausted. -/
theorem c3_attempt_cap_is_terminal_witness :
    (verifyOtpRoute [otpUser] "+15550001111" "000000" 0).1 = .failed .invalidCode
    ∧ (verifyOtpRoute (verifyOtpRoute [otpUser] "+15550001111" "000000" 0).2
        "+15550001111" "000000" 0).1 = .failed .invalidCode
    ∧ (verifyOtpRoute (verifyOtpRoute (verifyOtpRoute [otpUser] "+15550001111"
        "000000" 0).2 "+15550001111" "000000" 0).2 "+15550001111" "000000" 0).1
        = .failed .invalidCode
    ∧ (verifyOtpRoute (verifyOtpRoute (verifyOtpRoute (verifyOtpRoute [otpUser]
        "+15550001111" "000000" 0).2 "+15550001111" "000000" 0).2 "+15550001111"
        "000000" 0).2 "+15550001111" liveOtp.code 0).1 = .failed .attemptsExhausted :=
  c3_attempt_cap_is_terminal.2 [otpUser] "+15550001111" otpUser liveOtp 0 0 0 0
    "000000" "000000" "000000" (by decide) rfl (by decide) rfl (by decide) (by decide)
    (by decide) (by decide) (by decide) (by decide) (by decide)
